import Mathlib

/-!
Shallow embedding of `combine_tree_data.py`: a single-pass converter that
reads Montreal tree-inventory CSV rows, validates coordinates, normalizes
plantation dates into years, and emits one GeoJSON-like point feature per
valid row, together with aggregate metadata (counts, year range, sorted
species list).

Modelling conventions:
* Python `float` values are modelled as exact rationals (`ℚ`); the script
  only parses coordinates, compares them with `0`, and stores them, so no
  rounding/overflow behaviour is observable in the modelled claims.
* A CSV row is modelled by the ten fields the script reads.  Python's
  `csv.DictReader` yields `None` for a missing field and the script's
  `row.get(key, default)` yields the default for an absent column; in every
  use site of the script a missing/`None` field is observationally identical
  to the empty string (coordinates: both paths skip the row; text fields:
  both substitute the same default), so a missing field is modelled as `""`.
* A whole input file either yields its list of rows or raises on
  open/parse; this is modelled as `Except String (List Row)`.
* `sys.exit(1)` for "no input files" is modelled as `Except.error 1`; a
  successful run returning the in-memory output document (which the script
  then serializes) is `Except.ok`.
-/

namespace TreesMtl

/-- Characters treated as whitespace by Python's `str.strip()` and by
`float()` (the common ASCII ones; exotic unicode whitespace is not part of
the model). -/
def isPySpace (c : Char) : Bool :=
  c == ' ' || c == '\t' || c == '\n' || c == '\r'

/-- Model of Python `str.strip()` on a list of characters. -/
def trimChars (l : List Char) : List Char :=
  ((l.dropWhile isPySpace).reverse.dropWhile isPySpace).reverse

/-- Model of Python `str.strip()` returning a string (used for the
`Rue_Nom` and `Emplacement` fields of a row). -/
def pyStrip (s : String) : String :=
  String.mk (trimChars s.data)

/-- Model of Python `x or default` on strings: the empty string is falsy. -/
def pyOr (v dflt : String) : String :=
  if v = "" then dflt else v

/-- Numeric value of a list of decimal digit characters, most significant
first. -/
def digitsVal (l : List Char) : Nat :=
  l.foldl (fun n c => n * 10 + (c.toNat - 48)) 0

/-- Optional leading sign of a numeric literal. -/
def parseSign : List Char → Int × List Char
  | '+' :: cs => (1, cs)
  | '-' :: cs => (-1, cs)
  | cs => (1, cs)

/-- Split a character list at the first character satisfying `p`; the second
component is `none` when no character matches. -/
def splitFirst (p : Char → Bool) : List Char → List Char × Option (List Char)
  | [] => ([], none)
  | c :: cs =>
    if p c then ([], some cs)
    else
      let r := splitFirst p cs
      (c :: r.1, r.2)

/-- Mantissa of a decimal literal `intpart[.fracpart]`: all of its digits as
a single natural number, together with the length of the fractional part.
At least one digit is required and a second dot is rejected, as in Python. -/
def parseDecimal (cs : List Char) : Option (Nat × Nat) :=
  let r := splitFirst (fun c => c == '.') cs
  match r.2 with
  | none => if cs ≠ [] ∧ cs.all Char.isDigit then some (digitsVal cs, 0) else none
  | some frac =>
    if (r.1 ≠ [] ∨ frac ≠ []) ∧ r.1.all Char.isDigit ∧ frac.all Char.isDigit then
      some (digitsVal (r.1 ++ frac), frac.length)
    else none

/-- The exact rational value `sgn * digits * 10 ^ shift`, built with `mkRat`
only (no rational arithmetic), so that it evaluates by kernel reduction. -/
def decShift (sgn : Int) (digits : Nat) (shift : Int) : ℚ :=
  if 0 ≤ shift then mkRat (sgn * digits * (10 : Int) ^ shift.toNat) 1
  else mkRat (sgn * digits) ((10 : Nat) ^ (-shift).toNat)

/-- Model of Python `float(s)` as used on the `Longitude`/`Latitude` fields:
strip whitespace, optional sign, decimal mantissa, optional `e`/`E` exponent
with optional sign.  Returns the exact decimal value (`none` on any parse
failure, which the script's `except` clause turns into a skipped row). -/
def pyFloat (s : String) : Option ℚ :=
  let cs := trimChars s.data
  let sgn := parseSign cs
  let parts := splitFirst (fun c => c == 'e' || c == 'E') sgn.2
  match parseDecimal parts.1 with
  | none => none
  | some m =>
    match parts.2 with
    | none => some (decShift sgn.1 m.1 (-(m.2 : Int)))
    | some ecs =>
      let esgn := parseSign ecs
      if esgn.2 ≠ [] ∧ esgn.2.all Char.isDigit then
        some (decShift sgn.1 m.1 (esgn.1 * (digitsVal esgn.2 : Int) - (m.2 : Int)))
      else none

/-- The midnight time-of-day pattern the script removes before date
parsing. -/
def midnightPat : List Char := "T00:00:00".data

/-- Fuel-driven removal of every occurrence of `midnightPat`, scanning left
to right without overlap: Python `s.replace('T00:00:00', '')` with an empty
replacement.  The fuel is the length of the scanned list, which suffices
because every step consumes at least one character. -/
def removeAllAux : Nat → List Char → List Char
  | _, [] => []
  | 0, l => l
  | fuel + 1, c :: cs =>
    if midnightPat.isPrefixOf (c :: cs) then
      removeAllAux fuel (List.drop (midnightPat.length - 1) cs)
    else c :: removeAllAux fuel cs

/-- Python `date_string.replace('T00:00:00', '')` on the character list. -/
def removeMidnight (l : List Char) : List Char :=
  removeAllAux l.length l

/-- Gregorian leap-year rule (as in Python's `datetime`). -/
def isLeapYear (y : Nat) : Bool :=
  y % 4 == 0 && (y % 100 != 0 || y % 400 == 0)

/-- Number of days of month `m` in year `y`. -/
def daysInMonth (y m : Nat) : Nat :=
  if m == 2 then (if isLeapYear y then 29 else 28)
  else if m == 4 || m == 6 || m == 9 || m == 11 then 30
  else 31

/-- Value of a two-digit field, or `none` if either character is not a
digit. -/
def twoDigitVal (a b : Char) : Option Nat :=
  if a.isDigit && b.isDigit then some ((a.toNat - 48) * 10 + (b.toNat - 48)) else none

/-- Validity of the optional time part following the date: empty, or a
`T`/space separator followed by `HH:MM` or `HH:MM:SS` in range. -/
def validTimeTail : List Char → Bool
  | [] => true
  | sep :: rest =>
    (sep == 'T' || sep == ' ') &&
      match rest with
      | [h1, h2, ':', m1, m2] =>
        ((twoDigitVal h1 h2).any fun h => h < 24) &&
          ((twoDigitVal m1 m2).any fun m => m < 60)
      | [h1, h2, ':', m1, m2, ':', s1, s2] =>
        ((twoDigitVal h1 h2).any fun h => h < 24) &&
          ((twoDigitVal m1 m2).any fun m => m < 60) &&
          ((twoDigitVal s1 s2).any fun s => s < 60)
      | _ => false

/-- Model of `datetime.fromisoformat` as used by the script, returning the
parsed year: accepts `YYYY-MM-DD` with a real calendar day, optionally
followed by a valid time part.  (Fractional seconds and timezone offsets,
which never occur in this data, are not part of the model.) -/
def parseIsoDatetimeYear (cs : List Char) : Option Nat :=
  match cs with
  | y1 :: y2 :: y3 :: y4 :: '-' :: m1 :: m2 :: '-' :: d1 :: d2 :: rest =>
    if y1.isDigit && y2.isDigit && y3.isDigit && y4.isDigit then
      match twoDigitVal m1 m2, twoDigitVal d1 d2 with
      | some m, some d =>
        let y := digitsVal [y1, y2, y3, y4]
        if 1 ≤ y && 1 ≤ m && m ≤ 12 && 1 ≤ d && d ≤ daysInMonth y m && validTimeTail rest
        then some y
        else none
      | _, _ => none
    else none
  | _ => none

/-- The script's `parse_date`: empty/blank input gives no year; otherwise
strip the midnight suffix, attempt ISO parsing (any failure degrades to
`none`, never an exception), and keep only years in `[1850, 2025]`. -/
def parse_date (dateString : String) : Option Nat :=
  if trimChars dateString.data = [] then none
  else
    match parseIsoDatetimeYear (removeMidnight dateString.data) with
    | none => none
    | some year => if 1850 ≤ year && year ≤ 2025 then some year else none

/-- Lexicographic comparison of character lists by code point, the order
Python's `sorted` uses on strings. -/
def charListLe : List Char → List Char → Bool
  | [], _ => true
  | _ :: _, [] => false
  | a :: as, b :: bs =>
    if a.toNat < b.toNat then true
    else if b.toNat < a.toNat then false
    else charListLe as bs

/-- String comparison by code points (Python `<=` on strings). -/
def strLe (a b : String) : Bool :=
  charListLe a.data b.data

/-- The ten fields of a CSV row that the script reads.  A missing or `None`
field is modelled as `""` (observationally identical at every use site, see
the module docstring). -/
structure Row where
  arrond : String := ""
  rueNom : String := ""
  emplacement : String := ""
  essenceLatin : String := ""
  essenceFr : String := ""
  essenceEn : String := ""
  dhp : String := ""
  datePlantation : String := ""
  longitude : String := ""
  latitude : String := ""
deriving DecidableEq, Repr

/-- One emitted GeoJSON feature: the coordinate pair and the abbreviated
property bag. -/
structure Feature where
  lon : ℚ
  lat : ℚ
  a : String
  r : String
  e : String
  tl : String
  tf : String
  te : String
  d : String
  y : Nat
deriving DecidableEq, Repr

/-- The script's accumulator state: the growing feature list, the species
set (`tree_types`), the year range (`none` models the `float('inf')` /
`float('-inf')` sentinels), the global counters and the per-file counters. -/
structure RunState where
  features : List Feature
  treeTypes : List String
  yearMin : Option Nat
  yearMax : Option Nat
  totalRows : Nat
  totalValid : Nat
  totalSkipped : Nat
  treesWithDates : Nat
  fileRows : Nat
  fileValid : Nat
  fileSkipped : Nat
deriving DecidableEq, Repr

/-- Python `set.add`, modelled on a duplicate-free list. -/
def setInsert (x : String) (l : List String) : List String :=
  if x ∈ l then l else l ++ [x]

/-- `min(year_range['min'], year)` where `none` models the initial
`float('inf')` sentinel. -/
def updateMin (acc : Option Nat) (y : Nat) : Option Nat :=
  match acc with
  | none => some y
  | some m => some (min m y)

/-- `max(year_range['max'], year)` where `none` models the initial
`float('-inf')` sentinel. -/
def updateMax (acc : Option Nat) (y : Nat) : Option Nat :=
  match acc with
  | none => some y
  | some m => some (max m y)

/-- Python truthiness of the parsed year (`if year:`): `None` and `0` are
falsy. -/
def yearTruthy (year : Option Nat) : Bool :=
  year.getD 0 != 0

/-- The two counter increments performed at the top of the row loop. -/
def countRow (st : RunState) : RunState :=
  { st with fileRows := st.fileRows + 1, totalRows := st.totalRows + 1 }

/-- The `continue` branches: increment the two skip counters only. -/
def skipRow (st : RunState) : RunState :=
  { st with fileSkipped := st.fileSkipped + 1, totalSkipped := st.totalSkipped + 1 }

/-- The `if year:` block: count the dated tree and widen the year range. -/
def addYear (st : RunState) (year : Option Nat) : RunState :=
  if yearTruthy year then
    { st with treesWithDates := st.treesWithDates + 1,
              yearMin := updateMin st.yearMin (year.getD 0),
              yearMax := updateMax st.yearMax (year.getD 0) }
  else st

/-- The feature appended for a valid row; its `y` property is the Python
expression `year if year else 0`. -/
def mkFeature (row : Row) (lon lat : ℚ) (year : Option Nat) : Feature :=
  { lon := lon
    lat := lat
    a := pyOr row.arrond ""
    r := pyStrip (pyOr row.rueNom "")
    e := pyStrip (pyOr row.emplacement "")
    tl := pyOr row.essenceLatin "Unknown"
    tf := pyOr row.essenceFr "Inconnu"
    te := pyOr row.essenceEn "Unknown"
    d := pyOr row.dhp ""
    y := if yearTruthy year then year.getD 0 else 0 }

/-- The valid-row tail of the loop body: parse the year, update the year
statistics, record the species, append the feature and count the row as
valid. -/
def emitRow (st : RunState) (row : Row) (lon lat : ℚ) : RunState :=
  let year := parse_date row.datePlantation
  let st1 := addYear st year
  { st1 with
      features := st1.features ++ [mkFeature row lon lat year]
      treeTypes := setInsert (pyOr row.essenceEn "Unknown") st1.treeTypes
      fileValid := st1.fileValid + 1
      totalValid := st1.totalValid + 1 }

/-- One iteration of the row loop: count the row, parse both coordinates
(failure or a zero coordinate skips the row), otherwise emit a feature. -/
def processRow (st : RunState) (row : Row) : RunState :=
  let st1 := countRow st
  match pyFloat row.longitude, pyFloat row.latitude with
  | some lon, some lat =>
    if lon = 0 ∨ lat = 0 then skipRow st1 else emitRow st1 row lon lat
  | _, _ => skipRow st1

/-- The per-file counter initialisation at the top of the file loop. -/
def resetFileCounters (st : RunState) : RunState :=
  { st with fileRows := 0, fileValid := 0, fileSkipped := 0 }

/-- One iteration of the file loop: an unreadable file is caught, reported
and skipped; a readable file has each of its rows processed in order. -/
def processFile (st : RunState) (file : Except String (List Row)) : RunState :=
  match file with
  | Except.error _ => resetFileCounters st
  | Except.ok rows => rows.foldl processRow (resetFileCounters st)

/-- The `year_range` object of the output metadata. -/
structure YearRange where
  min : Option Nat
  max : Option Nat
deriving DecidableEq, Repr

/-- The `metadata` object of the output document. -/
structure Metadata where
  total_trees : Nat
  trees_with_dates : Nat
  year_range : YearRange
  tree_types : List String
  generated_at : String
deriving DecidableEq, Repr

/-- The output `FeatureCollection`: ordered features plus metadata. -/
structure OutputDoc where
  features : List Feature
  metadata : Metadata
deriving DecidableEq, Repr

/-- The accumulator's initial value. -/
def initState : RunState :=
  { features := [], treeTypes := [], yearMin := none, yearMax := none,
    totalRows := 0, totalValid := 0, totalSkipped := 0, treesWithDates := 0,
    fileRows := 0, fileValid := 0, fileSkipped := 0 }

/-- Python `sorted(list(tree_types))`: code-point lexicographic sort. -/
def sortedTreeTypes (l : List String) : List String :=
  List.insertionSort (fun a b => strLe a b = true) l

/-- The whole run over the already-globbed, sorted list of input files.
`Except.error 1` models `sys.exit(1)` when no file matched (nothing is
written in that case); `Except.ok` carries the in-memory output document
that the script then serializes, with `now` the generation timestamp. -/
def combine_csv_files (csvFiles : List (Except String (List Row))) (now : String) :
    Except Nat OutputDoc :=
  if csvFiles.isEmpty then Except.error 1
  else
    let st := csvFiles.foldl processFile initState
    Except.ok
      { features := st.features
        metadata :=
          { total_trees := st.features.length
            trees_with_dates := st.treesWithDates
            year_range := { min := st.yearMin, max := st.yearMax }
            tree_types := sortedTreeTypes st.treeTypes
            generated_at := now } }

instance {e a : Type} [DecidableEq e] [DecidableEq a] : DecidableEq (Except e a) := fun x y =>
  match x, y with
  | Except.ok v, Except.ok w =>
    if h : v = w then isTrue (by rw [h]) else isFalse (fun hc => by cases hc; exact h rfl)
  | Except.error v, Except.error w =>
    if h : v = w then isTrue (by rw [h]) else isFalse (fun hc => by cases hc; exact h rfl)
  | Except.ok _, Except.error _ => isFalse (fun hc => by cases hc)
  | Except.error _, Except.ok _ => isFalse (fun hc => by cases hc)

/-- The plantation years of the emitted features that were actually resolved
(the sentinel `0` marks an unknown year and is never a resolved year, since
resolved years lie in `[1850, 2025]`). -/
def resolvedYears (l : List Feature) : List Nat :=
  l.filterMap (fun f => if f.y = 0 then none else some f.y)

theorem processRow_lonNone (st : RunState) (row : Row)
    (h : pyFloat row.longitude = none) :
    processRow st row = skipRow (countRow st) := by
  rcases hlat : pyFloat row.latitude with _ | lat <;> simp [processRow, h, hlat]

theorem processRow_latNone (st : RunState) (row : Row)
    (h : pyFloat row.latitude = none) :
    processRow st row = skipRow (countRow st) := by
  rcases hlon : pyFloat row.longitude with _ | lon <;> simp [processRow, h, hlon]

theorem processRow_zeroCoord (st : RunState) (row : Row) (lon lat : ℚ)
    (hlon : pyFloat row.longitude = some lon) (hlat : pyFloat row.latitude = some lat)
    (h : lon = 0 ∨ lat = 0) :
    processRow st row = skipRow (countRow st) := by
  simp [processRow, hlon, hlat, h]

theorem processRow_emit (st : RunState) (row : Row) (lon lat : ℚ)
    (hlon : pyFloat row.longitude = some lon) (hlat : pyFloat row.latitude = some lat)
    (h : ¬(lon = 0 ∨ lat = 0)) :
    processRow st row = emitRow (countRow st) row lon lat := by
  simp [processRow, hlon, hlat, h]

theorem mem_setInsert (s x : String) (l : List String) :
    s ∈ setInsert x l ↔ s ∈ l ∨ s = x := by
  unfold setInsert
  split
  · constructor
    · exact fun h => Or.inl h
    · rintro (h | rfl) <;> assumption
  · simp

theorem nodup_setInsert (x : String) (l : List String) (h : l.Nodup) :
    (setInsert x l).Nodup := by
  unfold setInsert
  split
  · exact h
  · simp [List.nodup_append, h, *]

theorem resolvedYears_append (l : List Feature) (f : Feature) :
    resolvedYears (l ++ [f]) = resolvedYears l ++ (if f.y = 0 then [] else [f.y]) := by
  simp only [resolvedYears, List.filterMap_append, List.filterMap_cons, List.filterMap_nil]
  by_cases hf : f.y = 0
  · simp [hf]
  · simp [hf]

/-- The run-wide invariant tying the accumulator fields to the feature
list: every feature has non-zero coordinates, the species set is exactly the
set of emitted `te` values, the counters partition the rows, and the year
range sentinels fold the resolved years. -/
def StateInv (st : RunState) : Prop :=
  (∀ f ∈ st.features, f.lon ≠ 0 ∧ f.lat ≠ 0) ∧
  (∀ s, s ∈ st.treeTypes ↔ s ∈ st.features.map Feature.te) ∧
  st.treeTypes.Nodup ∧
  st.totalRows = st.totalValid + st.totalSkipped ∧
  st.totalValid = st.features.length ∧
  st.yearMin = (resolvedYears st.features).foldl updateMin none ∧
  st.yearMax = (resolvedYears st.features).foldl updateMax none

@[simp] theorem countRow_features (st : RunState) : (countRow st).features = st.features := rfl

@[simp] theorem countRow_treeTypes (st : RunState) : (countRow st).treeTypes = st.treeTypes := rfl

@[simp] theorem countRow_yearMin (st : RunState) : (countRow st).yearMin = st.yearMin := rfl

@[simp] theorem countRow_yearMax (st : RunState) : (countRow st).yearMax = st.yearMax := rfl

@[simp] theorem countRow_totalRows (st : RunState) : (countRow st).totalRows = st.totalRows + 1 := rfl

@[simp] theorem countRow_totalValid (st : RunState) : (countRow st).totalValid = st.totalValid := rfl

@[simp] theorem countRow_totalSkipped (st : RunState) : (countRow st).totalSkipped = st.totalSkipped := rfl

@[simp] theorem countRow_treesWithDates (st : RunState) : (countRow st).treesWithDates = st.treesWithDates := rfl

@[simp] theorem countRow_fileValid (st : RunState) : (countRow st).fileValid = st.fileValid := rfl

@[simp] theorem countRow_fileSkipped (st : RunState) : (countRow st).fileSkipped = st.fileSkipped := rfl

@[simp] theorem skipRow_features (st : RunState) : (skipRow st).features = st.features := rfl

@[simp] theorem skipRow_treeTypes (st : RunState) : (skipRow st).treeTypes = st.treeTypes := rfl

@[simp] theorem skipRow_yearMin (st : RunState) : (skipRow st).yearMin = st.yearMin := rfl

@[simp] theorem skipRow_yearMax (st : RunState) : (skipRow st).yearMax = st.yearMax := rfl

@[simp] theorem skipRow_totalRows (st : RunState) : (skipRow st).totalRows = st.totalRows := rfl

@[simp] theorem skipRow_totalValid (st : RunState) : (skipRow st).totalValid = st.totalValid := rfl

@[simp] theorem skipRow_totalSkipped (st : RunState) : (skipRow st).totalSkipped = st.totalSkipped + 1 := rfl

@[simp] theorem skipRow_treesWithDates (st : RunState) : (skipRow st).treesWithDates = st.treesWithDates := rfl

@[simp] theorem skipRow_fileValid (st : RunState) : (skipRow st).fileValid = st.fileValid := rfl

@[simp] theorem skipRow_fileSkipped (st : RunState) : (skipRow st).fileSkipped = st.fileSkipped + 1 := rfl

@[simp] theorem addYear_features (st : RunState) (year : Option Nat) :
    (addYear st year).features = st.features := by
  unfold addYear; split <;> rfl

@[simp] theorem addYear_treeTypes (st : RunState) (year : Option Nat) :
    (addYear st year).treeTypes = st.treeTypes := by
  unfold addYear; split <;> rfl

@[simp] theorem addYear_totalRows (st : RunState) (year : Option Nat) :
    (addYear st year).totalRows = st.totalRows := by
  unfold addYear; split <;> rfl

@[simp] theorem addYear_totalValid (st : RunState) (year : Option Nat) :
    (addYear st year).totalValid = st.totalValid := by
  unfold addYear; split <;> rfl

@[simp] theorem addYear_totalSkipped (st : RunState) (year : Option Nat) :
    (addYear st year).totalSkipped = st.totalSkipped := by
  unfold addYear; split <;> rfl

@[simp] theorem addYear_fileValid (st : RunState) (year : Option Nat) :
    (addYear st year).fileValid = st.fileValid := by
  unfold addYear; split <;> rfl

@[simp] theorem addYear_fileSkipped (st : RunState) (year : Option Nat) :
    (addYear st year).fileSkipped = st.fileSkipped := by
  unfold addYear; split <;> rfl

theorem addYear_treesWithDates_true (st : RunState) (year : Option Nat)
    (h : yearTruthy year = true) :
    (addYear st year).treesWithDates = st.treesWithDates + 1 := by
  unfold addYear; rw [if_pos h]

theorem addYear_treesWithDates_false (st : RunState) (year : Option Nat)
    (h : yearTruthy year = false) :
    (addYear st year).treesWithDates = st.treesWithDates := by
  unfold addYear; rw [if_neg (by simp [h])]

theorem addYear_yearMin_true (st : RunState) (year : Option Nat)
    (h : yearTruthy year = true) :
    (addYear st year).yearMin = updateMin st.yearMin (year.getD 0) := by
  unfold addYear; rw [if_pos h]

theorem addYear_yearMin_false (st : RunState) (year : Option Nat)
    (h : yearTruthy year = false) :
    (addYear st year).yearMin = st.yearMin := by
  unfold addYear; rw [if_neg (by simp [h])]

theorem addYear_yearMax_true (st : RunState) (year : Option Nat)
    (h : yearTruthy year = true) :
    (addYear st year).yearMax = updateMax st.yearMax (year.getD 0) := by
  unfold addYear; rw [if_pos h]

theorem addYear_yearMax_false (st : RunState) (year : Option Nat)
    (h : yearTruthy year = false) :
    (addYear st year).yearMax = st.yearMax := by
  unfold addYear; rw [if_neg (by simp [h])]

theorem emitRow_features (st : RunState) (row : Row) (lon lat : Rat) :
    (emitRow st row lon lat).features
      = st.features ++ [mkFeature row lon lat (parse_date row.datePlantation)] := by
  simp [emitRow]

@[simp] theorem emitRow_treeTypes (st : RunState) (row : Row) (lon lat : Rat) :
    (emitRow st row lon lat).treeTypes
      = setInsert (pyOr row.essenceEn "Unknown") st.treeTypes := by
  simp [emitRow]

@[simp] theorem emitRow_totalRows (st : RunState) (row : Row) (lon lat : Rat) :
    (emitRow st row lon lat).totalRows = st.totalRows := by
  simp [emitRow]

@[simp] theorem emitRow_totalValid (st : RunState) (row : Row) (lon lat : Rat) :
    (emitRow st row lon lat).totalValid = st.totalValid + 1 := by
  simp [emitRow]

@[simp] theorem emitRow_totalSkipped (st : RunState) (row : Row) (lon lat : Rat) :
    (emitRow st row lon lat).totalSkipped = st.totalSkipped := by
  simp [emitRow]

@[simp] theorem emitRow_fileValid (st : RunState) (row : Row) (lon lat : Rat) :
    (emitRow st row lon lat).fileValid = st.fileValid + 1 := by
  simp [emitRow]

@[simp] theorem emitRow_fileSkipped (st : RunState) (row : Row) (lon lat : Rat) :
    (emitRow st row lon lat).fileSkipped = st.fileSkipped := by
  simp [emitRow]

theorem emitRow_treesWithDates (st : RunState) (row : Row) (lon lat : Rat) :
    (emitRow st row lon lat).treesWithDates
      = (addYear st (parse_date row.datePlantation)).treesWithDates := by
  simp [emitRow]

theorem emitRow_yearMin (st : RunState) (row : Row) (lon lat : Rat) :
    (emitRow st row lon lat).yearMin
      = (addYear st (parse_date row.datePlantation)).yearMin := by
  simp [emitRow]

theorem emitRow_yearMax (st : RunState) (row : Row) (lon lat : Rat) :
    (emitRow st row lon lat).yearMax
      = (addYear st (parse_date row.datePlantation)).yearMax := by
  simp [emitRow]

theorem mkFeature_te (row : Row) (lon lat : Rat) (year : Option Nat) :
    (mkFeature row lon lat year).te = pyOr row.essenceEn "Unknown" := rfl

theorem mkFeature_y_true (row : Row) (lon lat : Rat) (year : Option Nat)
    (h : yearTruthy year = true) :
    (mkFeature row lon lat year).y = year.getD 0 := by
  simp only [mkFeature]; rw [if_pos h]

theorem mkFeature_y_false (row : Row) (lon lat : Rat) (year : Option Nat)
    (h : yearTruthy year = false) :
    (mkFeature row lon lat year).y = 0 := by
  simp only [mkFeature]; rw [if_neg (by simp [h])]

theorem yearTruthy_getD_ne (year : Option Nat) (h : yearTruthy year = true) :
    year.getD 0 ≠ 0 := by
  unfold yearTruthy at h; simpa using h

theorem stateInv_skip {st : RunState} (h : StateInv st) :
    StateInv (skipRow (countRow st)) := by
  obtain ⟨h1, h2, h3, h4, h5, h6, h7⟩ := h
  refine ⟨?_, ?_, ?_, ?_, ?_, ?_, ?_⟩
  · simpa using h1
  · simpa using h2
  · simpa using h3
  · simp only [skipRow_totalRows, countRow_totalRows, skipRow_totalValid,
      countRow_totalValid, skipRow_totalSkipped, countRow_totalSkipped]
    omega
  · simpa using h5
  · simpa using h6
  · simpa using h7

theorem stateInv_emitCount {st : RunState} (row : Row) (lon lat : Rat)
    (hz : lon ≠ 0 ∧ lat ≠ 0) (h : StateInv st) :
    StateInv (emitRow (countRow st) row lon lat) := by
  obtain ⟨h1, h2, h3, h4, h5, h6, h7⟩ := h
  refine ⟨?_, ?_, ?_, ?_, ?_, ?_, ?_⟩
  · rw [emitRow_features]
    intro f hf
    rcases List.mem_append.mp hf with hf | hf
    · exact h1 f (by simpa using hf)
    · rcases List.mem_singleton.mp hf with rfl
      exact hz
  · intro s
    rw [emitRow_treeTypes, emitRow_features]
    simp only [countRow_treeTypes, countRow_features]
    rw [mem_setInsert, h2 s]
    simp [mkFeature_te]
  · rw [emitRow_treeTypes]
    exact nodup_setInsert _ _ (by simpa using h3)
  · simp; omega
  · rw [emitRow_totalValid, emitRow_features]
    simp [h5]
  · rw [emitRow_yearMin, emitRow_features]
    simp only [countRow_features, countRow_yearMin]
    rw [resolvedYears_append]
    cases hy : yearTruthy (parse_date row.datePlantation) with
    | false =>
      rw [addYear_yearMin_false _ _ hy, mkFeature_y_false _ _ _ _ hy]
      simpa using h6
    | true =>
      rw [addYear_yearMin_true _ _ hy, mkFeature_y_true _ _ _ _ hy,
        if_neg (yearTruthy_getD_ne _ hy), List.foldl_append]
      simp [h6]
  · rw [emitRow_yearMax, emitRow_features]
    simp only [countRow_features, countRow_yearMax]
    rw [resolvedYears_append]
    cases hy : yearTruthy (parse_date row.datePlantation) with
    | false =>
      rw [addYear_yearMax_false _ _ hy, mkFeature_y_false _ _ _ _ hy]
      simpa using h7
    | true =>
      rw [addYear_yearMax_true _ _ hy, mkFeature_y_true _ _ _ _ hy,
        if_neg (yearTruthy_getD_ne _ hy), List.foldl_append]
      simp [h7]

theorem stateInv_processRow {st : RunState} (row : Row) (h : StateInv st) :
    StateInv (processRow st row) := by
  rcases hlon : pyFloat row.longitude with _ | lon
  · rw [processRow_lonNone st row hlon]; exact stateInv_skip h
  rcases hlat : pyFloat row.latitude with _ | lat
  · rw [processRow_latNone st row hlat]; exact stateInv_skip h
  by_cases hz : lon = 0 ∨ lat = 0
  · rw [processRow_zeroCoord st row lon lat hlon hlat hz]; exact stateInv_skip h
  · rw [processRow_emit st row lon lat hlon hlat hz]
    push_neg at hz
    exact stateInv_emitCount row lon lat hz h


theorem stateInv_foldl_rows (rows : List Row) {st : RunState} (h : StateInv st) :
    StateInv (rows.foldl processRow st) := by
  induction rows generalizing st with
  | nil => exact h
  | cons r rs ih => exact ih (stateInv_processRow r h)

theorem stateInv_processFile (file : Except String (List Row)) {st : RunState}
    (h : StateInv st) : StateInv (processFile st file) := by
  cases file with
  | error e => exact h
  | ok rows => exact stateInv_foldl_rows rows h

theorem stateInv_foldl_files (files : List (Except String (List Row))) {st : RunState}
    (h : StateInv st) : StateInv (files.foldl processFile st) := by
  induction files generalizing st with
  | nil => exact h
  | cons f fs ih => exact ih (stateInv_processFile f h)

theorem stateInv_initState : StateInv initState := by
  refine ⟨?_, ?_, ?_, ?_, ?_, ?_, ?_⟩ <;> simp [initState, resolvedYears]

theorem stateInv_run (files : List (Except String (List Row))) :
    StateInv (files.foldl processFile initState) :=
  stateInv_foldl_files files stateInv_initState

theorem foldl_updateMin_isSome (l : List Nat) (a : Nat) :
    ∃ m, l.foldl updateMin (some a) = some m := by
  induction l generalizing a with
  | nil => exact ⟨a, rfl⟩
  | cons y ys ih =>
    rw [List.foldl_cons]
    exact ih (min a y)

theorem foldl_updateMin_none_iff (l : List Nat) :
    l.foldl updateMin none = none ↔ l = [] := by
  cases l with
  | nil => simp
  | cons y ys =>
    rw [List.foldl_cons]
    constructor
    · intro h
      obtain ⟨m, hm⟩ := foldl_updateMin_isSome ys y
      rw [show updateMin none y = some y from rfl, hm] at h
      cases h
    · intro h
      simp at h

theorem foldl_updateMin_le (l : List Nat) (a m : Nat)
    (h : l.foldl updateMin (some a) = some m) :
    m ≤ a ∧ (m = a ∨ m ∈ l) ∧ ∀ z ∈ l, m ≤ z := by
  induction l generalizing a with
  | nil =>
    simp only [List.foldl_nil, Option.some.injEq] at h
    subst h
    exact ⟨le_rfl, Or.inl rfl, by simp⟩
  | cons y ys ih =>
    rw [List.foldl_cons] at h
    obtain ⟨hm1, hm2, hm3⟩ := ih (min a y) h
    refine ⟨le_trans hm1 (min_le_left a y), ?_, ?_⟩
    · rcases hm2 with hm2 | hm2
      · rcases min_choice a y with hc | hc
        · exact Or.inl (hm2.trans hc)
        · exact Or.inr (List.mem_cons.mpr (Or.inl (hm2.trans hc)))
      · exact Or.inr (List.mem_cons.mpr (Or.inr hm2))
    · intro z hz
      rcases List.mem_cons.mp hz with rfl | hz
      · exact le_trans hm1 (min_le_right a z)
      · exact hm3 z hz

theorem foldl_updateMin_spec (l : List Nat) (m : Nat)
    (h : l.foldl updateMin none = some m) :
    m ∈ l ∧ ∀ z ∈ l, m ≤ z := by
  cases l with
  | nil => simp at h
  | cons y ys =>
    rw [List.foldl_cons] at h
    obtain ⟨hm1, hm2, hm3⟩ := foldl_updateMin_le ys y m h
    refine ⟨?_, ?_⟩
    · rcases hm2 with rfl | hm2
      · exact List.mem_cons_self _ _
      · exact List.mem_cons.mpr (Or.inr hm2)
    · intro z hz
      rcases List.mem_cons.mp hz with rfl | hz
      · exact hm1
      · exact hm3 z hz

theorem foldl_updateMax_isSome (l : List Nat) (a : Nat) :
    ∃ m, l.foldl updateMax (some a) = some m := by
  induction l generalizing a with
  | nil => exact ⟨a, rfl⟩
  | cons y ys ih =>
    rw [List.foldl_cons]
    exact ih (max a y)

theorem foldl_updateMax_none_iff (l : List Nat) :
    l.foldl updateMax none = none ↔ l = [] := by
  cases l with
  | nil => simp
  | cons y ys =>
    rw [List.foldl_cons]
    constructor
    · intro h
      obtain ⟨m, hm⟩ := foldl_updateMax_isSome ys y
      rw [show updateMax none y = some y from rfl, hm] at h
      cases h
    · intro h
      simp at h

theorem foldl_updateMax_ge (l : List Nat) (a m : Nat)
    (h : l.foldl updateMax (some a) = some m) :
    a ≤ m ∧ (m = a ∨ m ∈ l) ∧ ∀ z ∈ l, z ≤ m := by
  induction l generalizing a with
  | nil =>
    simp only [List.foldl_nil, Option.some.injEq] at h
    subst h
    exact ⟨le_rfl, Or.inl rfl, by simp⟩
  | cons y ys ih =>
    rw [List.foldl_cons] at h
    obtain ⟨hm1, hm2, hm3⟩ := ih (max a y) h
    refine ⟨le_trans (le_max_left a y) hm1, ?_, ?_⟩
    · rcases hm2 with hm2 | hm2
      · rcases max_choice a y with hc | hc
        · exact Or.inl (hm2.trans hc)
        · exact Or.inr (List.mem_cons.mpr (Or.inl (hm2.trans hc)))
      · exact Or.inr (List.mem_cons.mpr (Or.inr hm2))
    · intro z hz
      rcases List.mem_cons.mp hz with rfl | hz
      · exact le_trans (le_max_right a z) hm1
      · exact hm3 z hz

theorem foldl_updateMax_spec (l : List Nat) (m : Nat)
    (h : l.foldl updateMax none = some m) :
    m ∈ l ∧ ∀ z ∈ l, z ≤ m := by
  cases l with
  | nil => simp at h
  | cons y ys =>
    rw [List.foldl_cons] at h
    obtain ⟨hm1, hm2, hm3⟩ := foldl_updateMax_ge ys y m h
    refine ⟨?_, ?_⟩
    · rcases hm2 with rfl | hm2
      · exact List.mem_cons_self _ _
      · exact List.mem_cons.mpr (Or.inr hm2)
    · intro z hz
      rcases List.mem_cons.mp hz with rfl | hz
      · exact hm1
      · exact hm3 z hz

theorem charListLe_total (a b : List Char) :
    charListLe a b = true ∨ charListLe b a = true := by
  induction a generalizing b with
  | nil => exact Or.inl rfl
  | cons x xs ih =>
    cases b with
    | nil => exact Or.inr rfl
    | cons y ys =>
      rcases Nat.lt_trichotomy x.toNat y.toNat with hl | he | hg
      · exact Or.inl (by simp [charListLe, hl])
      · have h1 : ¬ x.toNat < y.toNat := by omega
        have h2 : ¬ y.toNat < x.toNat := by omega
        rcases ih ys with hc | hc
        · exact Or.inl (by simp [charListLe, h1, h2, hc])
        · exact Or.inr (by simp [charListLe, h1, h2, hc])
      · exact Or.inr (by simp [charListLe, hg])

theorem charListLe_trans (a b c : List Char) (hab : charListLe a b = true)
    (hbc : charListLe b c = true) : charListLe a c = true := by
  induction a generalizing b c with
  | nil => rfl
  | cons x xs ih =>
    cases b with
    | nil => simp [charListLe] at hab
    | cons y ys =>
      cases c with
      | nil => simp [charListLe] at hbc
      | cons z zs =>
        rcases Nat.lt_trichotomy x.toNat y.toNat with hxy | hxy | hxy
        · rcases Nat.lt_trichotomy y.toNat z.toNat with hyz | hyz | hyz
          · have hxz : x.toNat < z.toNat := by omega
            simp [charListLe, hxz]
          · have hxz : x.toNat < z.toNat := by omega
            simp [charListLe, hxz]
          · have h1 : ¬ y.toNat < z.toNat := by omega
            simp [charListLe, h1, hyz] at hbc
        · have h1 : ¬ x.toNat < y.toNat := by omega
          have h2 : ¬ y.toNat < x.toNat := by omega
          simp only [charListLe, h1, h2, if_false] at hab
          rcases Nat.lt_trichotomy y.toNat z.toNat with hyz | hyz | hyz
          · have hxz : x.toNat < z.toNat := by omega
            simp [charListLe, hxz]
          · have h3 : ¬ y.toNat < z.toNat := by omega
            have h4 : ¬ z.toNat < y.toNat := by omega
            simp only [charListLe, h3, h4, if_false] at hbc
            have h5 : ¬ x.toNat < z.toNat := by omega
            have h6 : ¬ z.toNat < x.toNat := by omega
            simp only [charListLe, h5, h6, if_false]
            exact ih ys zs hab hbc
          · have h3 : ¬ y.toNat < z.toNat := by omega
            simp [charListLe, h3, hyz] at hbc
        · have h1 : ¬ x.toNat < y.toNat := by omega
          simp [charListLe, h1, hxy] at hab

instance : IsTotal String fun a b => strLe a b = true :=
  ⟨fun a b => charListLe_total a.data b.data⟩

instance : IsTrans String fun a b => strLe a b = true :=
  ⟨fun a b c => charListLe_trans a.data b.data c.data⟩

theorem processFile_resetFileCounters (st : RunState) (file : Except String (List Row)) :
    processFile (resetFileCounters st) file = processFile st file := by
  cases file <;> rfl

theorem foldl_processFile_reset_features (files : List (Except String (List Row)))
    (st : RunState) :
    (files.foldl processFile (resetFileCounters st)).features
      = (files.foldl processFile st).features := by
  cases files with
  | nil => rfl
  | cons f fs =>
    rw [List.foldl_cons, List.foldl_cons, processFile_resetFileCounters]

theorem combine_ok_inv (files : List (Except String (List Row))) (now : String)
    (out : OutputDoc) (h : combine_csv_files files now = Except.ok out) :
    out.features = (files.foldl processFile initState).features ∧
    out.metadata.total_trees = (files.foldl processFile initState).features.length ∧
    out.metadata.trees_with_dates = (files.foldl processFile initState).treesWithDates ∧
    out.metadata.year_range.min = (files.foldl processFile initState).yearMin ∧
    out.metadata.year_range.max = (files.foldl processFile initState).yearMax ∧
    out.metadata.tree_types = sortedTreeTypes (files.foldl processFile initState).treeTypes := by
  unfold combine_csv_files at h
  split at h
  · cases h
  · cases h
    exact ⟨rfl, rfl, rfl, rfl, rfl, rfl⟩

/-- A sample row with valid coordinates, a dated plantation and a species,
used by concrete witnesses. -/
def sampleRow : Row :=
  { longitude := "-73.6"
    latitude := "45.5"
    datePlantation := "2010-05-01T00:00:00"
    essenceEn := "Maple" }

/-- A one-file input list around `sampleRow`. -/
def sampleFiles : List (Except String (List Row)) := [Except.ok [sampleRow]]

/-- The feature the script emits for `sampleRow`. -/
def sampleFeature : Feature :=
  { lon := mkRat (-368) 5
    lat := mkRat 91 2
    a := ""
    r := ""
    e := ""
    tl := "Unknown"
    tf := "Inconnu"
    te := "Maple"
    d := ""
    y := 2010 }

/-- The output document of the run over `sampleFiles`. -/
def sampleDoc : OutputDoc :=
  { features := [sampleFeature]
    metadata :=
      { total_trees := 1
        trees_with_dates := 1
        year_range := { min := some 2010, max := some 2010 }
        tree_types := ["Maple"]
        generated_at := "ts" } }

/-- A row whose longitude parses to exactly `0`. -/
def zeroCoordRow : Row := { longitude := "0", latitude := "45.5" }

/-- A row with valid coordinates and a plantation year outside
`[1850, 2025]`. -/
def outOfRangeRow : Row :=
  { longitude := "-73.6"
    latitude := "45.5"
    datePlantation := "1700-01-01T00:00:00" }

/-- C1: for every input row whose `Longitude` or `Latitude` field is
non-numeric or parses to exactly `0`, no feature is appended, the per-file
and total skip counters increment by exactly 1, and the per-file and total
valid counters do not increment. -/
theorem claim1_bad_coordinates_skip (st : RunState) (row : Row)
    (h : pyFloat row.longitude = none ∨ pyFloat row.latitude = none ∨
         pyFloat row.longitude = some 0 ∨ pyFloat row.latitude = some 0) :
    (processRow st row).features = st.features ∧
    (processRow st row).fileSkipped = st.fileSkipped + 1 ∧
    (processRow st row).totalSkipped = st.totalSkipped + 1 ∧
    (processRow st row).fileValid = st.fileValid ∧
    (processRow st row).totalValid = st.totalValid := by
  have hskip : processRow st row = skipRow (countRow st) := by
    rcases h with h | h | h | h
    · exact processRow_lonNone st row h
    · exact processRow_latNone st row h
    · rcases hlat : pyFloat row.latitude with _ | lat
      · exact processRow_latNone st row hlat
      · exact processRow_zeroCoord st row 0 lat h hlat (Or.inl rfl)
    · rcases hlon : pyFloat row.longitude with _ | lon
      · exact processRow_lonNone st row hlon
      · exact processRow_zeroCoord st row lon 0 hlon h (Or.inr rfl)
  rw [hskip]
  exact ⟨rfl, rfl, rfl, rfl, rfl⟩

/-- Witness for C1 at a concrete row whose longitude is the literal "0". -/
theorem claim1_bad_coordinates_skip_witness :
    (pyFloat zeroCoordRow.longitude = none ∨ pyFloat zeroCoordRow.latitude = none ∨
     pyFloat zeroCoordRow.longitude = some 0 ∨ pyFloat zeroCoordRow.latitude = some 0) ∧
    ((processRow initState zeroCoordRow).features = initState.features ∧
     (processRow initState zeroCoordRow).fileSkipped = initState.fileSkipped + 1 ∧
     (processRow initState zeroCoordRow).totalSkipped = initState.totalSkipped + 1 ∧
     (processRow initState zeroCoordRow).fileValid = initState.fileValid ∧
     (processRow initState zeroCoordRow).totalValid = initState.totalValid) :=
  ⟨Or.inr (Or.inr (Or.inl (by decide))),
   claim1_bad_coordinates_skip initState zeroCoordRow (Or.inr (Or.inr (Or.inl (by decide))))⟩

/-- C2: invariant of the output document: every feature of the final
features sequence has non-zero longitude and latitude. -/
theorem claim2_no_zero_coordinate_feature (files : List (Except String (List Row)))
    (now : String) (out : OutputDoc) (h : combine_csv_files files now = Except.ok out) :
    ∀ f ∈ out.features, f.lon ≠ 0 ∧ f.lat ≠ 0 := by
  obtain ⟨hf, -, -, -, -, -⟩ := combine_ok_inv files now out h
  rw [hf]
  exact (stateInv_run files).1

/-- Witness for C2 on a concrete one-file run. -/
theorem claim2_no_zero_coordinate_feature_witness :
    combine_csv_files sampleFiles "ts" = Except.ok sampleDoc ∧
    ∀ f ∈ sampleDoc.features, f.lon ≠ 0 ∧ f.lat ≠ 0 :=
  ⟨by decide, claim2_no_zero_coordinate_feature sampleFiles "ts" sampleDoc (by decide)⟩

/-- C3: a row with valid non-zero coordinates and a non-empty plantation
date that, after removal of the `T00:00:00` midnight suffix, parses as an
ISO date whose year lies in `[1850, 2025]`, is emitted as one feature whose
`y` property equals that year, and the dated-trees counter increments by
exactly 1. -/
theorem claim3_dated_row_year (st : RunState) (row : Row) (lon lat : Rat) (y : Nat)
    (hlon : pyFloat row.longitude = some lon) (hlat : pyFloat row.latitude = some lat)
    (hlon0 : lon ≠ 0) (hlat0 : lat ≠ 0)
    (hne : trimChars row.datePlantation.data ≠ [])
    (hiso : parseIsoDatetimeYear (removeMidnight row.datePlantation.data) = some y)
    (hy1 : 1850 ≤ y) (hy2 : y ≤ 2025) :
    (processRow st row).features = st.features ++ [mkFeature row lon lat (some y)] ∧
    (mkFeature row lon lat (some y)).y = y ∧
    (processRow st row).treesWithDates = st.treesWithDates + 1 := by
  have hpd : parse_date row.datePlantation = some y := by
    unfold parse_date
    rw [if_neg hne, hiso]
    simp [hy1, hy2]
  have hz : ¬(lon = 0 ∨ lat = 0) := by tauto
  have hty : yearTruthy (some y) = true := by
    unfold yearTruthy
    simp
    omega
  rw [processRow_emit st row lon lat hlon hlat hz]
  refine ⟨?_, ?_, ?_⟩
  · rw [emitRow_features, hpd, countRow_features]
  · rw [mkFeature_y_true _ _ _ _ hty]
    rfl
  · rw [emitRow_treesWithDates, hpd, addYear_treesWithDates_true _ _ hty,
      countRow_treesWithDates]

/-- Witness for C3 at a concrete dated row. -/
theorem claim3_dated_row_year_witness :
    pyFloat sampleRow.longitude = some (mkRat (-368) 5) ∧
    pyFloat sampleRow.latitude = some (mkRat 91 2) ∧
    mkRat (-368) 5 ≠ 0 ∧
    mkRat 91 2 ≠ 0 ∧
    trimChars sampleRow.datePlantation.data ≠ [] ∧
    parseIsoDatetimeYear (removeMidnight sampleRow.datePlantation.data) = some 2010 ∧
    1850 ≤ 2010 ∧
    2010 ≤ 2025 ∧
    ((processRow initState sampleRow).features
        = initState.features ++ [mkFeature sampleRow (mkRat (-368) 5) (mkRat 91 2) (some 2010)] ∧
     (mkFeature sampleRow (mkRat (-368) 5) (mkRat 91 2) (some 2010)).y = 2010 ∧
     (processRow initState sampleRow).treesWithDates = initState.treesWithDates + 1) :=
  ⟨by decide, by decide, by decide, by decide, by decide, by decide, by decide, by decide,
   claim3_dated_row_year initState sampleRow (mkRat (-368) 5) (mkRat 91 2) 2010
     (by decide) (by decide) (by decide) (by decide) (by decide) (by decide)
     (by decide) (by decide)⟩

/-- C4: a row with valid coordinates whose plantation date is empty,
malformed, or parses to a year outside `[1850, 2025]` gets `none` from
`parse_date` (a total function, so date parsing never raises), is emitted
with the sentinel year `0`, and leaves the dated-trees counter unchanged. -/
theorem claim4_undated_row_sentinel (st : RunState) (row : Row) (lon lat : Rat)
    (hlon : pyFloat row.longitude = some lon) (hlat : pyFloat row.latitude = some lat)
    (hlon0 : lon ≠ 0) (hlat0 : lat ≠ 0)
    (hbad : trimChars row.datePlantation.data = []
        ∨ parseIsoDatetimeYear (removeMidnight row.datePlantation.data) = none
        ∨ ∃ y, parseIsoDatetimeYear (removeMidnight row.datePlantation.data) = some y
            ∧ (y < 1850 ∨ 2025 < y)) :
    parse_date row.datePlantation = none ∧
    (processRow st row).features = st.features ++ [mkFeature row lon lat none] ∧
    (mkFeature row lon lat none).y = 0 ∧
    (processRow st row).treesWithDates = st.treesWithDates := by
  have hpd : parse_date row.datePlantation = none := by
    unfold parse_date
    by_cases ht : trimChars row.datePlantation.data = []
    · rw [if_pos ht]
    · rw [if_neg ht]
      rcases hbad with hbad | hbad | ⟨y, hy, hyr⟩
      · exact absurd hbad ht
      · rw [hbad]
      · rw [hy]
        have hvf : (1850 ≤ y && y ≤ 2025) = false := by
          rcases hyr with hlt | hgt
          · simp
            omega
          · simp
            intro
            omega
        simp [hvf]
  have hz : ¬(lon = 0 ∨ lat = 0) := by tauto
  rw [processRow_emit st row lon lat hlon hlat hz]
  refine ⟨hpd, ?_, ?_, ?_⟩
  · rw [emitRow_features, hpd, countRow_features]
  · rw [mkFeature_y_false row lon lat none rfl]
  · rw [emitRow_treesWithDates, hpd,
      addYear_treesWithDates_false (countRow st) none rfl, countRow_treesWithDates]

/-- Witness for C4 at a concrete row dated outside the plausible range. -/
theorem claim4_undated_row_sentinel_witness :
    (trimChars outOfRangeRow.datePlantation.data = []
      ∨ parseIsoDatetimeYear (removeMidnight outOfRangeRow.datePlantation.data) = none
      ∨ ∃ y, parseIsoDatetimeYear (removeMidnight outOfRangeRow.datePlantation.data) = some y
          ∧ (y < 1850 ∨ 2025 < y)) ∧
    (parse_date outOfRangeRow.datePlantation = none ∧
     (processRow initState outOfRangeRow).features
        = initState.features ++ [mkFeature outOfRangeRow (mkRat (-368) 5) (mkRat 91 2) none] ∧
     (mkFeature outOfRangeRow (mkRat (-368) 5) (mkRat 91 2) none).y = 0 ∧
     (processRow initState outOfRangeRow).treesWithDates = initState.treesWithDates) :=
  ⟨Or.inr (Or.inr ⟨1700, by decide, Or.inl (by decide)⟩),
   claim4_undated_row_sentinel initState outOfRangeRow (mkRat (-368) 5) (mkRat 91 2)
     (by decide) (by decide) (by decide) (by decide)
     (Or.inr (Or.inr ⟨1700, by decide, Or.inl (by decide)⟩))⟩

/-- C5: the metadata `tree_types` list is exactly the sorted (code-point
lexicographic), duplicate-free set of the English species (`te`) values of
the emitted features.  (Empty or missing `Essence_en` was already
substituted by "Unknown" in both the feature and the recorded set, since
the script records the very value it stores in the feature.) -/
theorem claim5_tree_types_sorted_set (files : List (Except String (List Row)))
    (now : String) (out : OutputDoc) (h : combine_csv_files files now = Except.ok out) :
    List.Sorted (fun a b => strLe a b = true) out.metadata.tree_types ∧
    out.metadata.tree_types.Nodup ∧
    (∀ s, s ∈ out.metadata.tree_types ↔ s ∈ out.features.map Feature.te) := by
  obtain ⟨hf, -, -, -, -, ht⟩ := combine_ok_inv files now out h
  obtain ⟨-, h2, h3, -, -, -, -⟩ := stateInv_run files
  rw [ht, hf]
  simp only [sortedTreeTypes]
  refine ⟨List.sorted_insertionSort _ _, ?_, ?_⟩
  · exact (List.perm_insertionSort _ _).nodup_iff.mpr h3
  · intro s
    rw [List.mem_insertionSort]
    exact h2 s

/-- Witness for C5 on a concrete one-file run. -/
theorem claim5_tree_types_sorted_set_witness :
    combine_csv_files sampleFiles "ts" = Except.ok sampleDoc ∧
    (List.Sorted (fun a b => strLe a b = true) sampleDoc.metadata.tree_types ∧
     sampleDoc.metadata.tree_types.Nodup ∧
     ∀ s, s ∈ sampleDoc.metadata.tree_types ↔ s ∈ sampleDoc.features.map Feature.te) :=
  ⟨by decide, claim5_tree_types_sorted_set sampleFiles "ts" sampleDoc (by decide)⟩

/-- C6: every parsed row increments the row counter by one and exactly one
of the valid/skipped counters, so after any run
`total_rows = total_valid + total_skipped`, and `total_valid` equals the
length of the emitted feature sequence. -/
theorem claim6_counter_partition :
    (∀ (st : RunState) (row : Row),
        (processRow st row).totalRows = st.totalRows + 1 ∧
        (processRow st row).totalValid + (processRow st row).totalSkipped
          = st.totalValid + st.totalSkipped + 1) ∧
    ∀ files : List (Except String (List Row)),
        (files.foldl processFile initState).totalRows
          = (files.foldl processFile initState).totalValid
            + (files.foldl processFile initState).totalSkipped ∧
        (files.foldl processFile initState).totalValid
          = (files.foldl processFile initState).features.length := by
  constructor
  · intro st row
    rcases hlon : pyFloat row.longitude with _ | lon
    · rw [processRow_lonNone st row hlon]
      exact ⟨rfl, rfl⟩
    rcases hlat : pyFloat row.latitude with _ | lat
    · rw [processRow_latNone st row hlat]
      exact ⟨rfl, rfl⟩
    by_cases hz : lon = 0 ∨ lat = 0
    · rw [processRow_zeroCoord st row lon lat hlon hlat hz]
      exact ⟨rfl, rfl⟩
    · rw [processRow_emit st row lon lat hlon hlat hz]
      refine ⟨by rw [emitRow_totalRows, countRow_totalRows], ?_⟩
      rw [emitRow_totalValid, emitRow_totalSkipped, countRow_totalValid,
        countRow_totalSkipped]
      omega
  · intro files
    obtain ⟨-, -, -, h4, h5, -, -⟩ := stateInv_run files
    exact ⟨h4, h5⟩

/-- C7: the metadata year range is absent (both bounds are the `null`
sentinel) iff no processed row contributed a resolved plantation year;
otherwise its `min`/`max` are the minimum/maximum of the resolved years of
the emitted features. -/
theorem claim7_year_range (files : List (Except String (List Row)))
    (now : String) (out : OutputDoc) (h : combine_csv_files files now = Except.ok out) :
    (out.metadata.year_range.min = none ↔ resolvedYears out.features = []) ∧
    (out.metadata.year_range.max = none ↔ resolvedYears out.features = []) ∧
    (∀ m, out.metadata.year_range.min = some m →
        m ∈ resolvedYears out.features ∧ ∀ z ∈ resolvedYears out.features, m ≤ z) ∧
    (∀ m, out.metadata.year_range.max = some m →
        m ∈ resolvedYears out.features ∧ ∀ z ∈ resolvedYears out.features, z ≤ m) := by
  obtain ⟨hf, -, -, hmin, hmax, -⟩ := combine_ok_inv files now out h
  obtain ⟨-, -, -, -, -, h6, h7⟩ := stateInv_run files
  rw [hf, hmin, hmax, h6, h7]
  refine ⟨foldl_updateMin_none_iff _, foldl_updateMax_none_iff _, ?_, ?_⟩
  · intro m hm
    exact foldl_updateMin_spec _ m hm
  · intro m hm
    exact foldl_updateMax_spec _ m hm

/-- Witness for C7 on a concrete one-file run with one dated tree. -/
theorem claim7_year_range_witness :
    combine_csv_files sampleFiles "ts" = Except.ok sampleDoc ∧
    ((sampleDoc.metadata.year_range.min = none ↔ resolvedYears sampleDoc.features = []) ∧
     (sampleDoc.metadata.year_range.max = none ↔ resolvedYears sampleDoc.features = []) ∧
     (∀ m, sampleDoc.metadata.year_range.min = some m →
        m ∈ resolvedYears sampleDoc.features ∧
          ∀ z ∈ resolvedYears sampleDoc.features, m ≤ z) ∧
     (∀ m, sampleDoc.metadata.year_range.max = some m →
        m ∈ resolvedYears sampleDoc.features ∧
          ∀ z ∈ resolvedYears sampleDoc.features, z ≤ m)) :=
  ⟨by decide, claim7_year_range sampleFiles "ts" sampleDoc (by decide)⟩

/-- C8: with zero matching input files the run aborts with exit status 1
(modelled as `Except.error 1`), and since the abort happens before any
write, no output document is produced. -/
theorem claim8_no_files_fatal : ∀ now : String, combine_csv_files [] now = Except.error 1 :=
  fun _ => rfl

/-- C9: a per-file failure never aborts the run: a run whose file list
contains a failing file still returns an output document (the process does
not exit non-zero for it), and the failing file contributes nothing to the
emitted feature sequence — processing simply continues with the remaining
files. -/
theorem claim9_per_file_failure_continues (files1 files2 : List (Except String (List Row)))
    (msg : String) (now : String) :
    (∃ out, combine_csv_files (files1 ++ Except.error msg :: files2) now = Except.ok out) ∧
    ((files1 ++ Except.error msg :: files2).foldl processFile initState).features
      = ((files1 ++ files2).foldl processFile initState).features := by
  constructor
  · unfold combine_csv_files
    rw [if_neg (by simp)]
    exact ⟨_, rfl⟩
  · rw [List.foldl_append, List.foldl_append, List.foldl_cons]
    rw [show processFile (List.foldl processFile initState files1) (Except.error msg)
        = resetFileCounters (List.foldl processFile initState files1) from rfl]
    exact foldl_processFile_reset_features files2 _

/-- The output document without its generation timestamp. -/
def docSansTimestamp (o : OutputDoc) :
    List Feature × Nat × Nat × YearRange × List String :=
  (o.features, o.metadata.total_trees, o.metadata.trees_with_dates,
    o.metadata.year_range, o.metadata.tree_types)

/-- C10: the run is deterministic up to the timestamp: over the same input
files, two runs agree on the feature sequence and on every metadata field
except `generated_at`. -/
theorem claim10_deterministic (files : List (Except String (List Row)))
    (now1 now2 : String) :
    (combine_csv_files files now1).map docSansTimestamp
      = (combine_csv_files files now2).map docSansTimestamp := by
  unfold combine_csv_files
  split <;> rfl

end TreesMtl
